import Mathlib

/-!
# Verification of the `run_server.py` supervisor

Shallow embedding of `src/run_server.py`, a supervisor for a long-running
server child process.  The supervisor relays the child's output lines to the
controlling terminal, captures operator input lines, interprets the local
pseudo-commands `exit` and `fakelog <msg>`, forwards every other line to the
child's input, and runs a graceful-shutdown protocol.

Modelling conventions:
* Python strings are lists of characters (`PyStr`); the string operations
  `strip`, `rstrip`, `lower`, `startswith` and slicing are embedded as
  executable Lean functions over the ASCII fragment they are used on.
* The streams read by the worker tasks are lists of `readline` results;
  `Except.error ()` marks a read that raises an I/O error, `Except.ok []`
  marks EOF (Python's falsy empty string), and `Except.ok l` a line `l`.
* Each main-loop iteration is driven by an `IterObs` record holding what the
  code observes during that iteration: the liveness polls, the dequeued line
  (if any), whether a write to the child's stdin would succeed, and the
  wall-clock timestamp.  Side effects (writes to the child's stdin, local
  prints) accumulate in a `LoopState`; `StepResult` distinguishes a normal
  iteration, a `break`, and an exception escaping the loop body.
* `shutdown_server` produces the trace of process-control actions it
  performs, wrapped in `Except` so that an escaping exception would be
  visible as `Except.error` (its `try`/`except` blocks make it total).
-/

/-- Python strings, modelled as lists of characters (ASCII fragment). -/
abbrev PyStr := List Char

/-- The ASCII whitespace characters removed by Python's `str.strip()` and
`str.rstrip()`: space, tab, newline, carriage return, vertical tab (11) and
form feed (12). -/
def pySpace (c : Char) : Bool :=
  c == ' ' || c == '\t' || c == '\n' || c == '\r' ||
    c == Char.ofNat 11 || c == Char.ofNat 12

/-- Python `str.lower()` on the ASCII fragment: `Char.toLower` lowers exactly
the ASCII uppercase letters, which matches Python on every character the
supervisor compares (`'exit'` is an ASCII literal). -/
def pyLower (l : PyStr) : PyStr := l.map Char.toLower

/-- Python `str.lstrip()`. -/
def pyLstrip (l : PyStr) : PyStr := l.dropWhile pySpace

/-- Python `str.rstrip()` (used by `read_output` as `line.rstrip()`). -/
def pyRstrip (l : PyStr) : PyStr := (l.reverse.dropWhile pySpace).reverse

/-- Python `str.strip()` (used by `input_thread` as `line.strip()`). -/
def pyStrip (l : PyStr) : PyStr := pyRstrip (pyLstrip l)

/-- The literal `'exit'` compared against `user_input.lower()`. -/
def exitChars : PyStr := ['e', 'x', 'i', 't']

/-- The word `fakelog` without the trailing space. -/
def fakelogChars : PyStr := ['f', 'a', 'k', 'e', 'l', 'o', 'g']

/-- The literal `'fakelog '` used in `user_input.startswith('fakelog ')` and
in the slice `user_input[len('fakelog '):]`. -/
def fakelogPat : PyStr := ['f', 'a', 'k', 'e', 'l', 'o', 'g', ' ']

/-- The literal `'stop\n'` written by `shutdown_server`. -/
def stopLine : PyStr := ['s', 't', 'o', 'p', '\n']

/-- `handle_output` from `main`: `print(line, flush=True)` prints its argument
verbatim, so its contribution to the printed transcript is the identity on the
line's content. -/
def handle_output (line : PyStr) : PyStr := line

/-- `read_output(pipe, callback)` (lines 9-19): loop `select`-ing on the pipe,
`readline()`, `break` on an empty (EOF) result, otherwise
`callback(line.rstrip())`.  The input models the sequence of `readline`
results (`Except.error ()` = the read raises).  The result is the list of
lines handed to the callback paired with a flag that is `true` exactly when an
exception escapes the function body — `read_output` contains no
`try`/`except`, so an error ends the recursion with the flag set. -/
def read_output : List (Except Unit PyStr) → List PyStr × Bool
  | [] => ([], false)
  | Except.error _ :: _ => ([], true)
  | Except.ok l :: rest =>
      if l.isEmpty then ([], false)
      else (pyRstrip l :: (read_output rest).1, (read_output rest).2)

/-- `input_thread(stop_event, input_queue)` (lines 32-43): loop `select`-ing
on stdin, `readline()`, `break` on EOF, otherwise enqueue `line.strip()`; the
whole body is wrapped in `try: ... except Exception: break`, so an I/O error
ends the loop exactly like EOF.  The input is the sequence of `readline`
results observed while the stop flag is unset (the flag being set truncates
the stream); the result is the queue contents paired with an
exception-escaped flag that is `false` by the `except` clause. -/
def input_thread : List (Except Unit PyStr) → List PyStr × Bool
  | [] => ([], false)
  | Except.error _ :: _ => ([], false)
  | Except.ok l :: rest =>
      if l.isEmpty then ([], false)
      else (pyStrip l :: (input_thread rest).1, (input_thread rest).2)

/-- Process-control actions performed by `shutdown_server`, in order. -/
inductive Act where
  | writeStdin (s : PyStr)
  | flushStdin
  | waitT (timeout : Nat)
  | terminate
  | wait
deriving DecidableEq

/-- What `shutdown_server` observes about the child process: the result of
`poll()` on entry (`running`), whether the `stdin.write`/`flush` pair succeeds
(`writeOk`; on failure the `except` clause swallows the error), and whether
`wait(timeout=10)` returns before the timeout (`exitsIn10`). -/
structure ShutdownObs where
  running : Bool
  writeOk : Bool
  exitsIn10 : Bool
deriving DecidableEq

/-- `shutdown_server(server_process)` (lines 45-57): if `poll()` reports the
child still running, try to write `'stop\n'` and flush (errors swallowed),
then `wait(timeout=10)`; on `TimeoutExpired`, `terminate()` and `wait()`.
Returns the trace of actions performed; `Except` would expose an escaping
exception, and the function is total (`Except.ok`) because every raise site is
guarded by a `try`/`except`. -/
def shutdown_server (o : ShutdownObs) : Except Unit (List Act) :=
  if o.running then
    let writeActs := if o.writeOk then [Act.writeStdin stopLine, Act.flushStdin] else []
    if o.exitsIn10 then
      Except.ok (writeActs ++ [Act.waitT 10])
    else
      Except.ok (writeActs ++ [Act.waitT 10, Act.terminate, Act.wait])
  else
    Except.ok []

/-- The stdin payload of a process-control action, if any. -/
def actWrite : Act → Option PyStr
  | Act.writeStdin s => some s
  | _ => none

/-- The lines a `shutdown_server` call writes to the child's stdin. -/
def shutdownWrites (o : ShutdownObs) : List PyStr :=
  match shutdown_server o with
  | Except.ok acts => acts.filterMap actWrite
  | Except.error _ => []

/-- Accumulated side effects of the main loop: the lines written to the
child's stdin and the lines printed to the controlling output. -/
structure LoopState where
  stdinWrites : List PyStr
  printed : List PyStr
deriving DecidableEq

/-- Effect of a `shutdown_server` call on the accumulated state. -/
def applyShutdown (o : ShutdownObs) (s : LoopState) : LoopState :=
  { s with stdinWrites := s.stdinWrites ++ shutdownWrites o }

/-- What one main-loop iteration observes: the `poll()` at the loop top
(`aliveTop`, `true` when `poll() is None`), the line dequeued from the input
queue (`none` = `queue.Empty`), the `poll()` guarding the forwarding write
(`aliveElse`), whether that `stdin.write`/`flush` succeeds (`writeOk`), the
current `strftime("%H:%M:%S")` timestamp (`now`), and the child state a
`shutdown_server` call would observe (`sdObs`). -/
structure IterObs where
  aliveTop : Bool
  dequeued : Option PyStr
  aliveElse : Bool
  writeOk : Bool
  now : PyStr
  sdObs : ShutdownObs
deriving DecidableEq

/-- Result of one iteration of the `while True` loop in `main`:
a normal iteration (`cont`), a `break` out of the loop (`stopped`), or an
exception escaping the loop body (`raised`) — the surrounding `try` catches
only `KeyboardInterrupt`, so an I/O error from the forwarding write is not
caught. -/
inductive StepResult where
  | cont (s : LoopState)
  | stopped (s : LoopState)
  | raised (s : LoopState)
deriving DecidableEq

/-- The line printed for `fakelog`: `f"[{timestamp} INFO]: {message}"`. -/
def fakelogLine (timestamp message : PyStr) : PyStr :=
  ('[' :: timestamp) ++ ([' ', 'I', 'N', 'F', 'O', ']', ':', ' '] ++ message)

/-- One iteration of the main loop (lines 101-121): break when the top
`poll()` reports exit; loop again on an empty dequeue; on a line `u`
(already `strip()`-ped by `input_thread`): `u.lower() == 'exit'` → call
`shutdown_server` and break; `u.startswith('fakelog ')` → print the
synthesized log line; otherwise, if the guarding `poll()` reports the child
alive, write `u + '\n'` and flush — a write failure there raises
(`StepResult.raised`); if the child has exited, drop the line. -/
def mainStep (obs : IterObs) (s : LoopState) : StepResult :=
  if obs.aliveTop then
    match obs.dequeued with
    | none => StepResult.cont s
    | some u =>
      if pyLower u = exitChars then
        StepResult.stopped (applyShutdown obs.sdObs s)
      else if fakelogPat.isPrefixOf u then
        StepResult.cont
          { s with printed := s.printed ++ [fakelogLine obs.now (u.drop fakelogPat.length)] }
      else if obs.aliveElse then
        if obs.writeOk then
          StepResult.cont { s with stdinWrites := s.stdinWrites ++ [u ++ ['\n']] }
        else
          StepResult.raised s
      else
        StepResult.cont s
  else
    StepResult.stopped s

/-- The main loop run over a sequence of iteration observations: iterate
`mainStep` until it breaks (`stopped`) or an exception escapes (`raised`);
if the observations run out while the loop would continue, report `cont`. -/
def runMain : List IterObs → LoopState → StepResult
  | [], s => StepResult.cont s
  | o :: rest, s =>
      match mainStep o s with
      | StepResult.cont s1 => runMain rest s1
      | r => r

/-- Modelled from the spec: the claim "forwards the line … unmodified
(verbatim, apart from line termination)" describes the relayed content of a
captured output line as the line with only its trailing newline removed.
Used solely as the comparison point for the relay's actual behaviour. -/
def dropLineTerm (l : PyStr) : PyStr :=
  if l.getLast? = some '\n' then l.dropLast else l

/-! ## Helper lemmas -/

lemma isPrefixOf_length_le (l1 l2 : PyStr) (h : l1.isPrefixOf l2 = true) :
    l1.length ≤ l2.length := by
  rw [List.isPrefixOf_iff_prefix] at h
  exact h.length_le

lemma pyLower_length (l : PyStr) : (pyLower l).length = l.length := by
  simp [pyLower]

lemma pyLower_ne_exit {u : PyStr} (h : fakelogPat.isPrefixOf u = true) :
    pyLower u ≠ exitChars := by
  intro he
  have h8 : fakelogPat.length ≤ u.length := isPrefixOf_length_le fakelogPat u h
  have h4 : u.length = exitChars.length := by rw [← pyLower_length u, he]
  have e8 : fakelogPat.length = 8 := rfl
  have e4 : exitChars.length = 4 := rfl
  omega

lemma ne_exit_of_fakelogPat {v : PyStr} (h : fakelogPat.isPrefixOf v = true) :
    v ≠ exitChars := by
  intro he
  have h8 : fakelogPat.length ≤ v.length := isPrefixOf_length_le fakelogPat v h
  rw [he] at h8
  have e8 : fakelogPat.length = 8 := rfl
  have e4 : exitChars.length = 4 := rfl
  omega

lemma dropWhile_pySpace_cons_false (c : Char) (t : PyStr) (h : pySpace c = false) :
    List.dropWhile pySpace (c :: t) = c :: t := by
  simp [List.dropWhile_cons, h]

lemma dropWhile_pySpace_all (w t : PyStr) (hw : ∀ c ∈ w, pySpace c = true) :
    List.dropWhile pySpace (w ++ t) = List.dropWhile pySpace t := by
  induction w with
  | nil => rfl
  | cons c cs ih =>
      have hc : pySpace c = true := hw c (List.mem_cons_self c cs)
      have hcs : ∀ x ∈ cs, pySpace x = true := fun x hx => hw x (List.mem_cons_of_mem c hx)
      simp [List.dropWhile_cons, hc, ih hcs]

lemma pyStrip_fakelog_pad (w : PyStr) (hw : ∀ c ∈ w, pySpace c = true) :
    pyStrip (fakelogChars ++ w) = fakelogChars := by
  show pyRstrip (pyLstrip (fakelogChars ++ w)) = fakelogChars
  have hl : pyLstrip (fakelogChars ++ w) = fakelogChars ++ w :=
    dropWhile_pySpace_cons_false 'f' (['a', 'k', 'e', 'l', 'o', 'g'] ++ w) (by decide)
  rw [hl]
  show (List.dropWhile pySpace (fakelogChars ++ w).reverse).reverse = fakelogChars
  rw [List.reverse_append]
  rw [dropWhile_pySpace_all w.reverse fakelogChars.reverse
    (fun c hc => hw c (List.mem_reverse.mp hc))]
  decide

lemma pyStrip_exit_pad (w1 w2 : PyStr) (hw1 : ∀ c ∈ w1, pySpace c = true)
    (hw2 : ∀ c ∈ w2, pySpace c = true) :
    pyStrip (w1 ++ (exitChars ++ w2)) = exitChars := by
  show pyRstrip (pyLstrip (w1 ++ (exitChars ++ w2))) = exitChars
  have hl : pyLstrip (w1 ++ (exitChars ++ w2)) = exitChars ++ w2 := by
    show List.dropWhile pySpace (w1 ++ (exitChars ++ w2)) = exitChars ++ w2
    rw [dropWhile_pySpace_all w1 (exitChars ++ w2) hw1]
    exact dropWhile_pySpace_cons_false 'e' (['x', 'i', 't'] ++ w2) (by decide)
  rw [hl]
  show (List.dropWhile pySpace (exitChars ++ w2).reverse).reverse = exitChars
  rw [List.reverse_append]
  rw [dropWhile_pySpace_all w2.reverse exitChars.reverse
    (fun c hc => hw2 c (List.mem_reverse.mp hc))]
  decide

lemma shutdown_server_ok (o : ShutdownObs) :
    ∃ acts, shutdown_server o = Except.ok acts := by
  rcases o with ⟨r, w, e⟩
  cases r <;> cases w <;> cases e <;> exact ⟨_, rfl⟩

/-! ## Concrete inputs used by the witnesses -/

/-- A raw input line whose trimmed text is a case variant of `exit`. -/
def rawExit : PyStr := [' ', 'E', 'x', 'i', 't', ' ']

/-- A child that is running, with writable stdin, exiting within the timeout. -/
def sdAll : ShutdownObs := ⟨true, true, true⟩

/-- An already-exited child. -/
def sdDead : ShutdownObs := ⟨false, true, true⟩

/-- Iteration observing the captured `exit` variant with the child alive. -/
def obsExit : IterObs := ⟨true, some (pyStrip rawExit), true, true, [], sdAll⟩

/-- A later iteration that would forward a line, never reached after `exit`. -/
def obsOther : IterObs := ⟨true, some ['h', 'i'], true, true, [], sdAll⟩

/-- The empty accumulated state. -/
def st0 : LoopState := ⟨[], []⟩

/-! ## Claims -/

/-- C1: a captured line whose trimmed text equals `exit` case-insensitively
makes the main loop call `shutdown_server` and break out of the loop (the
terminal STOPPING state); a run containing such an iteration is identical to
the run truncated right after it, so no captured line arriving later is ever
forwarded to the child's input. -/
theorem claim1_exit_stops_loop (raw : PyStr) (obs : IterObs) (l1 l2 : List IterObs)
    (s s0 : LoopState)
    (h1 : obs.aliveTop = true) (h2 : obs.dequeued = some (pyStrip raw))
    (hx : pyLower (pyStrip raw) = exitChars) :
    mainStep obs s = StepResult.stopped (applyShutdown obs.sdObs s) ∧
    runMain (l1 ++ obs :: l2) s0 = runMain (l1 ++ [obs]) s0 := by
  have hstep : ∀ t : LoopState,
      mainStep obs t = StepResult.stopped (applyShutdown obs.sdObs t) := by
    intro t
    simp [mainStep, h1, h2, hx]
  refine ⟨hstep s, ?_⟩
  induction l1 generalizing s0 with
  | nil =>
      simp only [List.nil_append, runMain, hstep s0]
  | cons o rest ih =>
      simp only [List.cons_append, runMain]
      cases mainStep o s0 with
      | cont s1 => exact ih s1
      | stopped s1 => rfl
      | raised s1 => rfl

/-- C1 witness: the concrete captured line ` Exit ` stops the loop, and the
pending line `hi` after it is never forwarded. -/
theorem claim1_witness :
    mainStep obsExit st0 = StepResult.stopped (applyShutdown obsExit.sdObs st0) ∧
    runMain ([] ++ obsExit :: [obsOther]) st0 = runMain ([] ++ [obsExit]) st0 :=
  claim1_exit_stops_loop rawExit obsExit [] [obsOther] st0 st0 rfl rfl (by decide)

/-- C2: on a child that is still running with writable stdin, the shutdown
sequence is exactly: write `stop\n`, flush, `wait(timeout=10)`, and — only
when that wait times out — `terminate()` followed by the unbounded `wait()`;
in particular, when the child exits within the timeout the trace contains no
forced termination. -/
theorem claim2_shutdown_running (o : ShutdownObs) (hr : o.running = true)
    (hw : o.writeOk = true) :
    shutdown_server o =
      Except.ok ([Act.writeStdin stopLine, Act.flushStdin, Act.waitT 10] ++
        (if o.exitsIn10 then [] else [Act.terminate, Act.wait])) ∧
    (o.exitsIn10 = true →
      shutdown_server o =
        Except.ok [Act.writeStdin stopLine, Act.flushStdin, Act.waitT 10]) := by
  constructor
  · cases he : o.exitsIn10 <;> simp [shutdown_server, hr, hw, he]
  · intro he
    simp [shutdown_server, hr, hw, he]

/-- C2 witness: a running child that exits within the timeout receives
`stop\n` and is never forcibly terminated. -/
theorem claim2_witness :
    shutdown_server sdAll =
      Except.ok [Act.writeStdin stopLine, Act.flushStdin, Act.waitT 10] :=
  (claim2_shutdown_running sdAll rfl rfl).2 rfl

/-- C3: on an already-exited child (`poll()` not `None`) the shutdown
sequence performs no actions at all — no write, no wait, no error — and two
successive invocations leave the accumulated state exactly unchanged. -/
theorem claim3_shutdown_idempotent (o : ShutdownObs) (s : LoopState)
    (h : o.running = false) :
    shutdown_server o = Except.ok [] ∧
    applyShutdown o (applyShutdown o s) = s := by
  have h1 : shutdown_server o = Except.ok [] := by simp [shutdown_server, h]
  refine ⟨h1, ?_⟩
  simp [applyShutdown, shutdownWrites, h1]

/-- C3 witness: double shutdown on a concrete exited child is a no-op. -/
theorem claim3_witness :
    shutdown_server sdDead = Except.ok [] ∧
    applyShutdown sdDead (applyShutdown sdDead st0) = st0 :=
  claim3_shutdown_idempotent sdDead st0 rfl

/-- C4 counterexample: on the child output line `"a \n"` (a trailing space
before the newline) the relay invokes the callback with `"a"`, because
`line.rstrip()` strips all trailing whitespace — the forwarded line is not
the original line with only its line termination removed. -/
theorem claim4_counterexample :
    read_output [Except.ok ['a', ' ', '\n']] ≠
      ([handle_output (dropLineTerm ['a', ' ', '\n'])], false) := by
  decide

/-- C4 (amended): every line the child writes to an output stream before EOF
is forwarded to the controlling output exactly once and in the stream's own
production order, but with all trailing whitespace stripped (Python
`rstrip()`), not merely its line terminator. -/
theorem claim4_relay_order (lines : List PyStr) :
    read_output (lines.map Except.ok) =
      ((lines.takeWhile (fun l => !l.isEmpty)).map (fun l => handle_output (pyRstrip l)),
        false) := by
  induction lines with
  | nil => rfl
  | cons l rest ih =>
      cases hl : l.isEmpty
      · simp [read_output, List.takeWhile_cons, hl, ih, handle_output]
      · simp [read_output, List.takeWhile_cons, hl]

/-- C5: a captured line starting with the exact prefix `fakelog ` makes the
iteration print exactly `[<timestamp> INFO]: <message>` — `message` being the
suffix after the 8-character prefix and `timestamp` the current wall-clock
`%H:%M:%S` — and write nothing to the child's stdin (only `printed` grows). -/
theorem claim5_fakelog (obs : IterObs) (s : LoopState) (u : PyStr)
    (h1 : obs.aliveTop = true) (h2 : obs.dequeued = some u)
    (hp : fakelogPat.isPrefixOf u = true) :
    mainStep obs s =
      StepResult.cont
        { s with printed :=
            s.printed ++ [fakelogLine obs.now (u.drop fakelogPat.length)] } := by
  have hne := pyLower_ne_exit hp
  simp [mainStep, h1, h2, hne, hp]

/-- The wall-clock timestamp `10:15:07` of the spec's scenario. -/
def nowTs : PyStr := ['1', '0', ':', '1', '5', ':', '0', '7']

/-- The captured line `fakelog Server ready` of the spec's scenario. -/
def uFakelog : PyStr :=
  ['f', 'a', 'k', 'e', 'l', 'o', 'g', ' ',
   'S', 'e', 'r', 'v', 'e', 'r', ' ', 'r', 'e', 'a', 'd', 'y']

/-- Iteration observing `fakelog Server ready` at 10:15:07. -/
def obsFakelog : IterObs := ⟨true, some uFakelog, true, true, nowTs, sdAll⟩

/-- C5 witness: `fakelog Server ready` at `10:15:07` prints the synthesized
line and sends nothing to the child. -/
theorem claim5_witness :
    fakelogPat.isPrefixOf uFakelog = true ∧
    mainStep obsFakelog st0 =
      StepResult.cont
        { st0 with printed :=
            st0.printed ++ [fakelogLine obsFakelog.now (uFakelog.drop fakelogPat.length)] } :=
  ⟨by decide, claim5_fakelog obsFakelog st0 uFakelog rfl rfl (by decide)⟩

/-- Sanity check of the C5 scenario: the synthesized line is exactly
`[10:15:07 INFO]: Server ready`. -/
lemma fakelogLine_scenario :
    fakelogLine nowTs (uFakelog.drop fakelogPat.length) =
      ("[10:15:07 INFO]: Server ready").toList := by
  decide

/-- C6: a captured line that is neither `exit` (case-insensitively) nor
prefixed by `fakelog `: while the guarding `poll()` reports the child alive
(and its stdin accepts the write), the child's stdin receives exactly the
line plus one newline and nothing is printed locally; if the child has
already exited by the guarding `poll()`, the line is dropped with no write,
no print and no error. -/
theorem claim6_forward (obs : IterObs) (s : LoopState) (u : PyStr)
    (h1 : obs.aliveTop = true) (h2 : obs.dequeued = some u)
    (hne : pyLower u ≠ exitChars) (hnp : fakelogPat.isPrefixOf u = false) :
    (obs.aliveElse = true → obs.writeOk = true →
      mainStep obs s =
        StepResult.cont { s with stdinWrites := s.stdinWrites ++ [u ++ ['\n']] }) ∧
    (obs.aliveElse = false → mainStep obs s = StepResult.cont s) := by
  constructor
  · intro ha hw
    simp [mainStep, h1, h2, hne, hnp, ha, hw]
  · intro ha
    simp [mainStep, h1, h2, hne, hnp, ha]

/-- The ordinary command line `say hi`. -/
def uSay : PyStr := ['s', 'a', 'y', ' ', 'h', 'i']

/-- Iteration observing `say hi` with the child alive and stdin writable. -/
def obsSay : IterObs := ⟨true, some uSay, true, true, [], sdAll⟩

/-- C6 witness: the concrete line `say hi` is forwarded as `say hi\n`. -/
theorem claim6_witness :
    pyLower uSay ≠ exitChars ∧
    ((obsSay.aliveElse = true → obsSay.writeOk = true →
        mainStep obsSay st0 =
          StepResult.cont { st0 with stdinWrites := st0.stdinWrites ++ [uSay ++ ['\n']] }) ∧
      (obsSay.aliveElse = false → mainStep obsSay st0 = StepResult.cont st0)) :=
  ⟨by decide, claim6_forward obsSay st0 uSay rfl rfl (by decide) (by decide)⟩

/-- Iteration in which the guarding `poll()` still reports the child alive
but the write to its stdin fails (the child exited in between). -/
def obsBrokenWrite : IterObs := ⟨true, some uSay, true, false, [], sdAll⟩

/-- C7 counterexample: when the child's stdin has closed between the guarding
`poll()` and the write, the forwarding `stdin.write` at line 120 raises and
the exception escapes the loop body — the surrounding `try` catches only
`KeyboardInterrupt` — contradicting the claim that every such write error is
silently ignored. -/
theorem claim7_counterexample :
    mainStep obsBrokenWrite st0 = StepResult.raised st0 ∧
    runMain [obsBrokenWrite] st0 = StepResult.raised st0 := by
  decide

/-- C7 (amended): a write failure inside `shutdown_server` is caught and
silently ignored (the operation never lets an exception escape), but a
failure of the forwarding write in the main loop is uncaught and propagates
out of the loop body. -/
theorem claim7_write_errors (o : ShutdownObs) (obs : IterObs) (s : LoopState)
    (u : PyStr)
    (h1 : obs.aliveTop = true) (h2 : obs.dequeued = some u)
    (hne : pyLower u ≠ exitChars) (hnp : fakelogPat.isPrefixOf u = false)
    (h3 : obs.aliveElse = true) (h4 : obs.writeOk = false) :
    (∃ acts, shutdown_server o = Except.ok acts) ∧
    mainStep obs s = StepResult.raised s := by
  refine ⟨shutdown_server_ok o, ?_⟩
  simp [mainStep, h1, h2, hne, hnp, h3, h4]

/-- A running child whose stdin write fails during shutdown. -/
def sdBroken : ShutdownObs := ⟨true, false, true⟩

/-- C7 witness: shutdown swallows the failed write on a concrete child while
the main loop raises on the concrete line `say hi`. -/
theorem claim7_witness :
    (∃ acts, shutdown_server sdBroken = Except.ok acts) ∧
    mainStep obsBrokenWrite st0 = StepResult.raised st0 :=
  claim7_write_errors sdBroken obsBrokenWrite st0 uSay rfl rfl
    (by decide) (by decide) rfl rfl

/-- C8 counterexample: an I/O error raised by the very first read inside the
relay escapes `read_output` — the function body has no `try`/`except` — so it
is not true that no exception escapes the task body of the output relay. -/
theorem claim8_counterexample :
    (read_output [Except.error ()]).2 = true := by
  decide

/-- C8 (amended): an I/O error inside the input-capture task is caught by its
`except Exception: break` and terminates it gracefully like EOF (no exception
ever escapes `input_thread`), but the output-relay function has no exception
handler, so an I/O error raised by one of its reads escapes its body. -/
theorem claim8_io_errors (stream rest : List (Except Unit PyStr)) :
    (input_thread stream).2 = false ∧
    input_thread (Except.error () :: rest) = ([], false) ∧
    (read_output (Except.error () :: rest)).2 = true := by
  refine ⟨?_, rfl, rfl⟩
  induction stream with
  | nil => rfl
  | cons x xs ih =>
      cases x with
      | error e => rfl
      | ok l =>
          cases hl : l.isEmpty
          · simp [input_thread, hl, ih]
          · simp [input_thread, hl]

/-- C9: the `fakelog ` prefix test (`str.startswith`) is case-sensitive,
unlike the `exit` comparison: a captured line that begins with a case variant
of the prefix (its lowering begins with `fakelog `) other than the exact
lowercase `fakelog ` is not interpreted locally — nothing is printed — and is
forwarded to the child's stdin with a trailing newline while the child is
running. -/
theorem claim9_fakelog_case_sensitive (obs : IterObs) (s : LoopState) (u : PyStr)
    (hlp : fakelogPat.isPrefixOf (pyLower u) = true)
    (hnp : fakelogPat.isPrefixOf u = false)
    (h1 : obs.aliveTop = true) (h2 : obs.dequeued = some u)
    (h3 : obs.aliveElse = true) (h4 : obs.writeOk = true) :
    mainStep obs s =
      StepResult.cont { s with stdinWrites := s.stdinWrites ++ [u ++ ['\n']] } := by
  have hne : pyLower u ≠ exitChars := ne_exit_of_fakelogPat hlp
  simp [mainStep, h1, h2, hne, hnp, h3, h4]

/-- The captured line `Fakelog hello` (capital F). -/
def uFakelogCase : PyStr :=
  ['F', 'a', 'k', 'e', 'l', 'o', 'g', ' ', 'h', 'e', 'l', 'l', 'o']

/-- Iteration observing `Fakelog hello` with the child alive. -/
def obsFakelogCase : IterObs := ⟨true, some uFakelogCase, true, true, [], sdAll⟩

/-- C9 witness: `Fakelog hello` is forwarded to the child, not interpreted. -/
theorem claim9_witness :
    fakelogPat.isPrefixOf (pyLower uFakelogCase) = true ∧
    mainStep obsFakelogCase st0 =
      StepResult.cont
        { st0 with stdinWrites := st0.stdinWrites ++ [uFakelogCase ++ ['\n']] } :=
  ⟨by decide,
    claim9_fakelog_case_sensitive obsFakelogCase st0 uFakelogCase
      (by decide) (by decide) rfl rfl rfl rfl⟩

/-- C10: because `input_thread` enqueues `line.strip()`, an input line that is
the word `fakelog` followed only by whitespace is captured as `fakelog`, fails
the `fakelog ` prefix test, and is forwarded to the running child as
`fakelog\n` instead of producing a synthesized log line; and an input line
that is `exit` surrounded by whitespace is captured as `exit` and still
triggers the shutdown sequence. -/
theorem claim10_trimming (w w1 w2 : PyStr) (obs obs2 : IterObs) (s s2 : LoopState)
    (hw : ∀ c ∈ w, pySpace c = true)
    (hw1 : ∀ c ∈ w1, pySpace c = true) (hw2 : ∀ c ∈ w2, pySpace c = true)
    (h1 : obs.aliveTop = true)
    (h2 : obs.dequeued = some (pyStrip (fakelogChars ++ w)))
    (h3 : obs.aliveElse = true) (h4 : obs.writeOk = true)
    (g1 : obs2.aliveTop = true)
    (g2 : obs2.dequeued = some (pyStrip (w1 ++ (exitChars ++ w2)))) :
    mainStep obs s =
      StepResult.cont { s with stdinWrites := s.stdinWrites ++ [fakelogChars ++ ['\n']] } ∧
    mainStep obs2 s2 = StepResult.stopped (applyShutdown obs2.sdObs s2) := by
  have e1 : pyStrip (fakelogChars ++ w) = fakelogChars := pyStrip_fakelog_pad w hw
  have e2 : pyStrip (w1 ++ (exitChars ++ w2)) = exitChars := pyStrip_exit_pad w1 w2 hw1 hw2
  rw [e1] at h2
  rw [e2] at g2
  have d1 : pyLower fakelogChars ≠ exitChars := by decide
  have d2 : fakelogPat.isPrefixOf fakelogChars = false := by decide
  have d3 : pyLower exitChars = exitChars := by decide
  constructor
  · simp [mainStep, h1, h2, d1, d2, h3, h4]
  · simp [mainStep, g1, g2, d3]

/-- Iteration observing the captured form of the raw line `fakelog  `. -/
def obsFakelogPad : IterObs :=
  ⟨true, some (pyStrip (fakelogChars ++ [' ', ' '])), true, true, [], sdAll⟩

/-- Iteration observing the captured form of the raw line ` exit⇥ `. -/
def obsExitPad : IterObs :=
  ⟨true, some (pyStrip ([' '] ++ (exitChars ++ ['\t']))), true, true, [], sdAll⟩

/-- C10 witness: the raw line `fakelog  ` is forwarded as `fakelog\n` and the
raw line `exit` padded with whitespace still stops the loop. -/
theorem claim10_witness :
    mainStep obsFakelogPad st0 =
      StepResult.cont
        { st0 with stdinWrites := st0.stdinWrites ++ [fakelogChars ++ ['\n']] } ∧
    mainStep obsExitPad st0 = StepResult.stopped (applyShutdown obsExitPad.sdObs st0) :=
  claim10_trimming [' ', ' '] [' '] ['\t'] obsFakelogPad obsExitPad st0 st0
    (by decide) (by decide) (by decide) rfl rfl rfl rfl rfl rfl
